import Mathlib

/-!
# Verification of the ultra-reliable film parser core

Shallow embedding of the resilient batch-fetch engine implemented in
`src/page_parser.py` (classes `ParseResult`, `AdaptiveRateLimiter`,
`UltraReliableParser`).  Pure data and control flow are translated literally;
wall-clock timing, logging and network I/O are abstracted: durations appear as
explicit rational parameters or oracle values, and the outcome of each network
attempt is supplied by an oracle so that every control path of the Python code
is represented.  Python float literals (0.1, 0.8, 1.5, 2.0) are modelled as the
exact rationals they denote in the source text.
-/

namespace PageParser

/-- Embeds the dataclass `ParseResult` (src/page_parser.py lines 42-59).
Optional string fields are `Option String` (Python `None` ↔ `none`);
`parse_time` is a rational duration; counters are naturals. -/
structure ParseResult where
  url : String
  title : Option String := none
  total_fees : Option String := none
  presales_fees : Option String := none
  premiere_day_fees : Option String := none
  first_weekend_fees : Option String := none
  second_weekend_fees : Option String := none
  country : Option String := none
  start_date : Option String := none
  year : Option String := none
  age_restriction : Option String := none
  error : Option String := none
  parse_time : ℚ := 0
  attempt_count : ℕ := 0
  batch_number : ℕ := 0
deriving DecidableEq

/-- Python truthiness of an `Optional[str]`: `None` and `""` are falsy,
every other string is truthy.  Used by `is_successful`, which tests
`if self.error` and `any(field for field in key_fields)`. -/
def truthy : Option String → Bool
  | none => false
  | some s => !(s == "")

/-- Embeds `ParseResult.is_successful` (lines 61-66): false when `error` is
truthy, otherwise true iff one of the four key fields (`title`, `total_fees`,
`country`, `start_date`) is truthy. -/
def ParseResult.is_successful (r : ParseResult) : Bool :=
  if truthy r.error then false
  else truthy r.title || truthy r.total_fees || truthy r.country || truthy r.start_date

/-- Embeds `AdaptiveRateLimiter.__init__` (lines 92-98): `base_delay = 0.1`,
`current_delay = base_delay`, `max_delay = 2.0`, both counters zero.
`last_request_time` is wall-clock state used only by `wait_before_request`
and is not modelled. -/
structure AdaptiveRateLimiter where
  base_delay : ℚ := 1/10
  current_delay : ℚ := 1/10
  max_delay : ℚ := 2
  success_count : ℕ := 0
  failure_count : ℕ := 0
deriving DecidableEq

/-- The freshly constructed rate limiter: all fields at their
`__init__` defaults. -/
def AdaptiveRateLimiter.init : AdaptiveRateLimiter := {}

/-- Embeds `AdaptiveRateLimiter.record_success` (lines 111-118): increment
`success_count`; if the incremented count exceeds 3 and `current_delay`
exceeds `base_delay`, set `current_delay := max base_delay (current_delay * 0.8)`
and reset the counter. -/
def AdaptiveRateLimiter.record_success (rl : AdaptiveRateLimiter) : AdaptiveRateLimiter :=
  let rl1 := { rl with success_count := rl.success_count + 1 }
  if 3 < rl1.success_count ∧ rl1.base_delay < rl1.current_delay then
    { rl1 with
      current_delay := max rl1.base_delay (rl1.current_delay * (4/5)),
      success_count := 0 }
  else rl1

/-- Embeds `AdaptiveRateLimiter.record_failure` (lines 120-127): increment
`failure_count`, reset `success_count` to 0, and set
`current_delay := min max_delay (current_delay * 1.5)`. -/
def AdaptiveRateLimiter.record_failure (rl : AdaptiveRateLimiter) : AdaptiveRateLimiter :=
  { rl with
    failure_count := rl.failure_count + 1,
    success_count := 0,
    current_delay := min rl.max_delay (rl.current_delay * (3/2)) }

/-- A call on the rate limiter: either `record_success` or `record_failure`. -/
inductive RLEvent
  | success
  | failure
deriving DecidableEq

/-- Apply one rate-limiter call. -/
def AdaptiveRateLimiter.apply (rl : AdaptiveRateLimiter) : RLEvent → AdaptiveRateLimiter
  | RLEvent.success => rl.record_success
  | RLEvent.failure => rl.record_failure

/-- Apply a finite sequence of rate-limiter calls, oldest first. -/
def AdaptiveRateLimiter.applyAll (rl : AdaptiveRateLimiter) (es : List RLEvent) :
    AdaptiveRateLimiter :=
  es.foldl AdaptiveRateLimiter.apply rl

/-- The delay-range invariant together with the configuration facts it needs
to be inductive: `0 ≤ base_delay ≤ max_delay` and
`base_delay ≤ current_delay ≤ max_delay`. -/
def DelayInv (rl : AdaptiveRateLimiter) : Prop :=
  0 ≤ rl.base_delay ∧ rl.base_delay ≤ rl.max_delay ∧
    rl.base_delay ≤ rl.current_delay ∧ rl.current_delay ≤ rl.max_delay

/-- Case analysis form of `record_success`. -/
lemma record_success_eq (rl : AdaptiveRateLimiter) :
    rl.record_success =
      if 3 < rl.success_count + 1 ∧ rl.base_delay < rl.current_delay then
        { rl with
          current_delay := max rl.base_delay (rl.current_delay * (4/5)),
          success_count := 0 }
      else { rl with success_count := rl.success_count + 1 } := rfl

lemma delayInv_record_success {rl : AdaptiveRateLimiter} (h : DelayInv rl) :
    DelayInv rl.record_success := by
  obtain ⟨h0, hbm, hbc, hcm⟩ := h
  rw [record_success_eq]
  by_cases hcond : 3 < rl.success_count + 1 ∧ rl.base_delay < rl.current_delay
  · rw [if_pos hcond]
    exact ⟨h0, hbm, le_max_left _ _, max_le hbm (by nlinarith)⟩
  · rw [if_neg hcond]
    exact ⟨h0, hbm, hbc, hcm⟩

lemma delayInv_record_failure {rl : AdaptiveRateLimiter} (h : DelayInv rl) :
    DelayInv rl.record_failure := by
  obtain ⟨h0, hbm, hbc, hcm⟩ := h
  unfold AdaptiveRateLimiter.record_failure
  refine ⟨h0, hbm, le_min hbm ?_, min_le_left _ _⟩
  nlinarith

lemma delayInv_apply {rl : AdaptiveRateLimiter} (h : DelayInv rl) (e : RLEvent) :
    DelayInv (rl.apply e) := by
  cases e
  · exact delayInv_record_success h
  · exact delayInv_record_failure h

lemma delayInv_applyAll {rl : AdaptiveRateLimiter} (h : DelayInv rl) (es : List RLEvent) :
    DelayInv (rl.applyAll es) := by
  induction es generalizing rl with
  | nil => exact h
  | cons e es ih => exact ih (delayInv_apply h e)

/-- C2: starting from the initial rate-limiter state (where
`current_delay = base_delay`), after any finite sequence of `record_success`
and `record_failure` calls, `current_delay` stays within the closed interval
`[base_delay, max_delay]` — and this holds after every call, since the
sequence is universally quantified. -/
theorem currentDelay_stays_in_range (es : List RLEvent) :
    (AdaptiveRateLimiter.init.applyAll es).base_delay ≤
        (AdaptiveRateLimiter.init.applyAll es).current_delay ∧
      (AdaptiveRateLimiter.init.applyAll es).current_delay ≤
        (AdaptiveRateLimiter.init.applyAll es).max_delay := by
  have h : DelayInv AdaptiveRateLimiter.init := by
    unfold DelayInv AdaptiveRateLimiter.init
    norm_num
  have := delayInv_applyAll h es
  exact ⟨this.2.2.1, this.2.2.2⟩

/-- C3: a single `record_failure` call, from any rate-limiter state, sets
`current_delay` to `min max_delay (current_delay * 1.5)` and resets the
success counter to 0, unconditionally. -/
theorem record_failure_caps_delay (rl : AdaptiveRateLimiter) :
    rl.record_failure.current_delay = min rl.max_delay (rl.current_delay * (3/2)) ∧
      rl.record_failure.success_count = 0 :=
  ⟨rfl, rfl⟩

/-- C4: from any state with success counter 0 and `current_delay` strictly
above `base_delay`, the first three `record_success` calls leave
`current_delay` unchanged, and the fourth sets it to
`max base_delay (0.8 * current_delay)` and resets the counter to 0. -/
theorem record_success_relaxes_after_four (rl : AdaptiveRateLimiter)
    (h0 : rl.success_count = 0) (hd : rl.base_delay < rl.current_delay) :
    rl.record_success.current_delay = rl.current_delay ∧
      rl.record_success.record_success.current_delay = rl.current_delay ∧
      rl.record_success.record_success.record_success.current_delay = rl.current_delay ∧
      rl.record_success.record_success.record_success.record_success.current_delay =
        max rl.base_delay (rl.current_delay * (4/5)) ∧
      rl.record_success.record_success.record_success.record_success.success_count = 0 := by
  have e1 : rl.record_success = { rl with success_count := 1 } := by
    rw [record_success_eq, if_neg (by simp [h0])]
    simp [h0]
  have e2 : ({ rl with success_count := 1 } : AdaptiveRateLimiter).record_success =
      { rl with success_count := 2 } := by
    rw [record_success_eq, if_neg (by simp)]
  have e3 : ({ rl with success_count := 2 } : AdaptiveRateLimiter).record_success =
      { rl with success_count := 3 } := by
    rw [record_success_eq, if_neg (by simp)]
  have e4 : ({ rl with success_count := 3 } : AdaptiveRateLimiter).record_success =
      { rl with
        current_delay := max rl.base_delay (rl.current_delay * (4/5)),
        success_count := 0 } := by
    rw [record_success_eq, if_pos (by simp [hd])]
  simp [e1, e2, e3, e4]

/-- Witness for C4 at the concrete state with `base_delay = 1/10`,
`current_delay = 1`, `max_delay = 2` and counters zero. -/
theorem record_success_relaxes_after_four_witness :
    ({ current_delay := 1 } : AdaptiveRateLimiter).success_count = 0 ∧
      ({ current_delay := 1 } : AdaptiveRateLimiter).base_delay <
        ({ current_delay := 1 } : AdaptiveRateLimiter).current_delay ∧
      (({ current_delay := 1 } :
          AdaptiveRateLimiter).record_success.record_success.record_success.record_success).current_delay =
        max ({ current_delay := 1 } : AdaptiveRateLimiter).base_delay
          (({ current_delay := 1 } : AdaptiveRateLimiter).current_delay * (4/5)) :=
  ⟨rfl, by norm_num,
    (record_success_relaxes_after_four { current_delay := 1 } rfl (by norm_num)).2.2.2.1⟩

/-! ## Per-target retry state machine (`UltraReliableParser.parse_single_url`) -/

/-- Observable pacing effects of one attempt of `parse_single_url`
(lines 216-231), in program order: the rate-limiter gate
(`wait_before_request`, line 219), the retry backoff sleep (line 225, only
when `attempt > 0`), the network fetch (`session.get`, line 231), and the
fixed sleeps of the status branches (lines 250, 255, 270). -/
inductive AttemptEvent
  | rateWait
  | backoffSleep (duration : ℚ)
  | fetch
  | fixedSleep (duration : ℚ)
deriving DecidableEq

/-- The retry backoff duration of line 223:
`min(1.5 ** attempt + random.uniform(0.2, 0.8), 8)`, with the random draw
abstracted as the parameter `jitter`. -/
def retryDelay (attempt : ℕ) (jitter : ℚ) : ℚ :=
  min ((3/2) ^ attempt + jitter) 8

/-- The events of one attempt up to and including the fetch, in the order
the code performs them (lines 217-231): `wait_before_request` first, then —
only for `attempt > 0` — the backoff sleep, then the request itself. -/
def attemptPrelude (attempt : ℕ) (jitter : ℚ) : List AttemptEvent :=
  [AttemptEvent.rateWait] ++
    (if 0 < attempt then [AttemptEvent.backoffSleep (retryDelay attempt jitter)] else []) ++
    [AttemptEvent.fetch]

/-- C5 counterexample: on retry attempt 1 (with jitter 0.5, so the backoff is
`min(1.5 + 0.5, 8) = 2`), the attempt's event order is NOT
backoff-sleep-then-rate-wait-then-fetch, as the claim (spec steps 1→2→3)
requires. -/
theorem backoff_before_rateWait_false :
    attemptPrelude 1 (1/2) ≠
      [AttemptEvent.backoffSleep (retryDelay 1 (1/2)), AttemptEvent.rateWait,
        AttemptEvent.fetch] := by
  decide

/-- C5 amended: on every retry attempt (index > 0), the code first calls the
rate controller's `wait_before_request`, then sleeps the backoff
`min(1.5^attempt + jitter, 8)`, and only then issues the fetch. -/
theorem rateWait_then_backoff_then_fetch (attempt : ℕ) (jitter : ℚ)
    (h : 0 < attempt) :
    attemptPrelude attempt jitter =
      [AttemptEvent.rateWait, AttemptEvent.backoffSleep (retryDelay attempt jitter),
        AttemptEvent.fetch] := by
  unfold attemptPrelude
  rw [if_pos h]
  rfl

/-- Witness for the amended C5 at attempt 1 with jitter 1/2. -/
theorem rateWait_then_backoff_then_fetch_witness :
    0 < 1 ∧
      attemptPrelude 1 (1/2) =
        [AttemptEvent.rateWait, AttemptEvent.backoffSleep (retryDelay 1 (1/2)),
          AttemptEvent.fetch] :=
  ⟨by decide, rateWait_then_backoff_then_fetch 1 (1/2) (by decide)⟩

/-- What the extraction step (`_parse_html_content`, lines 285-305) does on
one HTML body: either every `_extract_*` strategy runs (each swallows its own
exceptions and yields an `Option String`), or the HTML parser itself raises
before any field is assigned (`BeautifulSoup` / the `lxml` import), in which
case the method catches the exception and records it in `error`. -/
inductive Extraction
  | ok (title total_fees presales_fees premiere_day_fees first_weekend_fees
      second_weekend_fees country start_date year age_restriction : Option String)
  | exc (msg : String)

/-- Classified outcome of one network attempt, mirroring the branch structure
of `parse_single_url` (lines 231-275): HTTP 200 with a body to extract from,
HTTP 429, HTTP ≥ 500, any other status, `asyncio.TimeoutError`,
`aiohttp.ClientError`, or an unclassified exception. -/
inductive Outcome
  | http200 (ext : Extraction)
  | http429
  | http5xx
  | httpOther
  | timeout
  | clientError
  | otherExc

/-- Embeds `_parse_html_content` (lines 285-305).  On success it overwrites
the ten extracted fields and — crucially — never touches `error`; on an
extraction exception it leaves all fields as they were and sets
`error := "HTML parsing error: <msg>"`. -/
def parse_html_content (r : ParseResult) : Extraction → ParseResult
  | Extraction.ok t tf ps pd fw sw c sd y a =>
      { r with
        title := t, total_fees := tf, presales_fees := ps, premiere_day_fees := pd,
        first_weekend_fees := fw, second_weekend_fees := sw, country := c,
        start_date := sd, year := y, age_restriction := a }
  | Extraction.exc m => { r with error := some ("HTML parsing error: " ++ m) }

/-- The terminal-failure message of line 278:
`f"Failed after {self.max_retries + 1} attempts"`. -/
def failMsg (max_retries : ℕ) : String :=
  "Failed after " ++ toString (max_retries + 1) ++ " attempts"

/-- Oracle supplying the environment of one `parse_single_url` run: the
classified outcome of each attempt, the jitter drawn for each backoff, and
the measured duration of each HTTP-200 attempt (`time.time() - start_time`). -/
structure FetchOracle where
  outcome : ℕ → Outcome
  jitter : ℕ → ℚ
  duration : ℕ → ℚ

/-- Embeds the retry loop of `parse_single_url` (lines 216-283) from attempt
index `attempt` on, threading the shared rate limiter and the mutable
`ParseResult`, and collecting the pacing events.  Each branch mirrors the
code: HTTP 200 extracts into the result, stamps `parse_time` and
`attempt_count`, and returns on `is_successful` (after `record_success`),
otherwise falls through with no failure record; 429 records a failure and
sleeps 5s; ≥ 500 sleeps 2s with no failure record; other statuses just
continue; timeout records a failure; client errors record a failure and
sleep 1s; unclassified exceptions just continue.  When the budget of
`max_retries + 1` attempts is spent, `error` is overwritten with the
terminal message, `attempt_count` is set to `max_retries + 1`, and one more
failure is recorded (lines 277-283). -/
def parse_single_aux (o : FetchOracle) (max_retries : ℕ) (rl : AdaptiveRateLimiter)
    (r : ParseResult) (attempt : ℕ) :
    AdaptiveRateLimiter × ParseResult × List AttemptEvent :=
  if max_retries + 1 ≤ attempt then
    (rl.record_failure,
      { r with error := some (failMsg max_retries), attempt_count := max_retries + 1 },
      [])
  else
    let pre := attemptPrelude attempt (o.jitter attempt)
    match o.outcome attempt with
    | Outcome.http200 ext =>
        let r2 :=
          { parse_html_content r ext with
            parse_time := o.duration attempt, attempt_count := attempt + 1 }
        if r2.is_successful then (rl.record_success, r2, pre)
        else
          let next := parse_single_aux o max_retries rl r2 (attempt + 1)
          (next.1, next.2.1, pre ++ next.2.2)
    | Outcome.http429 =>
        let next := parse_single_aux o max_retries rl.record_failure r (attempt + 1)
        (next.1, next.2.1, pre ++ [AttemptEvent.fixedSleep 5] ++ next.2.2)
    | Outcome.http5xx =>
        let next := parse_single_aux o max_retries rl r (attempt + 1)
        (next.1, next.2.1, pre ++ [AttemptEvent.fixedSleep 2] ++ next.2.2)
    | Outcome.httpOther =>
        let next := parse_single_aux o max_retries rl r (attempt + 1)
        (next.1, next.2.1, pre ++ next.2.2)
    | Outcome.timeout =>
        let next := parse_single_aux o max_retries rl.record_failure r (attempt + 1)
        (next.1, next.2.1, pre ++ next.2.2)
    | Outcome.clientError =>
        let next := parse_single_aux o max_retries rl.record_failure r (attempt + 1)
        (next.1, next.2.1, pre ++ [AttemptEvent.fixedSleep 1] ++ next.2.2)
    | Outcome.otherExc =>
        let next := parse_single_aux o max_retries rl r (attempt + 1)
        (next.1, next.2.1, pre ++ next.2.2)
  termination_by max_retries + 1 - attempt

/-- Embeds `parse_single_url` (lines 212-283): start from the fresh
`ParseResult(url=url, batch_number=batch_number)` at attempt 0. -/
def parse_single_url (o : FetchOracle) (max_retries : ℕ) (url : String)
    (batch_number : ℕ) (rl : AdaptiveRateLimiter) :
    AdaptiveRateLimiter × ParseResult × List AttemptEvent :=
  parse_single_aux o max_retries rl { url := url, batch_number := batch_number } 0

lemma htmlError_truthy (m : String) :
    truthy (some ("HTML parsing error: " ++ m)) = true := by
  have hne : ("HTML parsing error: " ++ m) ≠ "" := by
    intro h
    have h2 := congrArg String.length h
    rw [String.length_append] at h2
    have hl : "HTML parsing error: ".length = 20 := rfl
    have he : "".length = 0 := rfl
    rw [hl, he] at h2
    omega
  simp [truthy, hne]

/-- Once `error` is truthy, a further `_parse_html_content` call leaves it
truthy: the success branch never touches `error`, and the exception branch
overwrites it with another nonempty message. -/
lemma parse_html_content_keeps_truthy_error {r : ParseResult}
    (h : truthy r.error = true) (ext : Extraction) :
    truthy (parse_html_content r ext).error = true := by
  cases ext with
  | ok t tf ps pd fw sw c sd y a => exact h
  | exc m => exact htmlError_truthy m

/-- A result with a truthy `error` is never `is_successful`, whatever its
key fields hold. -/
lemma is_successful_false_of_truthy_error {r : ParseResult}
    (h : truthy r.error = true) : r.is_successful = false := by
  simp [ParseResult.is_successful, h]

/-- Sticky-error lemma: if the retry loop is entered at any attempt with a
truthy `error` on the accumulating result, no remaining attempt can return
success, so the loop runs to exhaustion and finalizes with the terminal
failure message and `attempt_count = max_retries + 1`. -/
lemma parse_single_aux_sticky (o : FetchOracle) (max_retries : ℕ) :
    ∀ (fuel attempt : ℕ) (rl : AdaptiveRateLimiter) (r : ParseResult),
      max_retries + 1 - attempt ≤ fuel → truthy r.error = true →
      (parse_single_aux o max_retries rl r attempt).2.1.error =
          some (failMsg max_retries) ∧
        (parse_single_aux o max_retries rl r attempt).2.1.attempt_count =
          max_retries + 1 := by
  intro fuel
  induction fuel with
  | zero =>
      intro attempt rl r hle herr
      rw [parse_single_aux, if_pos (by omega)]
      exact ⟨rfl, rfl⟩
  | succ n ih =>
      intro attempt rl r hle herr
      rw [parse_single_aux]
      by_cases hstop : max_retries + 1 ≤ attempt
      · rw [if_pos hstop]
        exact ⟨rfl, rfl⟩
      · rw [if_neg hstop]
        have hfuel : max_retries + 1 - (attempt + 1) ≤ n := by omega
        cases houtcome : o.outcome attempt with
        | http200 ext =>
            simp only [houtcome]
            have herr2 :
                truthy ({ parse_html_content r ext with
                  parse_time := o.duration attempt,
                  attempt_count := attempt + 1 } : ParseResult).error = true :=
              parse_html_content_keeps_truthy_error herr ext
            rw [if_neg (by simp [is_successful_false_of_truthy_error herr2])]
            exact ih (attempt + 1) rl _ hfuel herr2
        | http429 =>
            simp only [houtcome]
            exact ih (attempt + 1) rl.record_failure r hfuel herr
        | http5xx =>
            simp only [houtcome]
            exact ih (attempt + 1) rl r hfuel herr
        | httpOther =>
            simp only [houtcome]
            exact ih (attempt + 1) rl r hfuel herr
        | timeout =>
            simp only [houtcome]
            exact ih (attempt + 1) rl.record_failure r hfuel herr
        | clientError =>
            simp only [houtcome]
            exact ih (attempt + 1) rl.record_failure r hfuel herr
        | otherExc =>
            simp only [houtcome]
            exact ih (attempt + 1) rl r hfuel herr

/-- C9: if the attempt at index `attempt` returns HTTP 200 but the HTML
extraction raises (setting `error := "HTML parsing error: …"`), then —
whatever every later attempt fetches or extracts — the run entered at that
attempt finalizes as a terminal failure: `error` is overwritten with
`"Failed after max_retries+1 attempts"` and `attempt_count = max_retries + 1`.
In particular no later attempt clears the error, since `is_successful` stays
false on every subsequent attempt. -/
theorem extraction_error_forces_terminal_failure (o : FetchOracle)
    (max_retries attempt : ℕ) (rl : AdaptiveRateLimiter) (r : ParseResult)
    (msg : String) (h : o.outcome attempt = Outcome.http200 (Extraction.exc msg)) :
    (parse_single_aux o max_retries rl r attempt).2.1.error =
        some (failMsg max_retries) ∧
      (parse_single_aux o max_retries rl r attempt).2.1.attempt_count =
        max_retries + 1 := by
  rw [parse_single_aux]
  by_cases hstop : max_retries + 1 ≤ attempt
  · rw [if_pos hstop]
    exact ⟨rfl, rfl⟩
  · rw [if_neg hstop]
    simp only [h]
    have herr2 :
        truthy ({ parse_html_content r (Extraction.exc msg) with
          parse_time := o.duration attempt,
          attempt_count := attempt + 1 } : ParseResult).error = true :=
      htmlError_truthy msg
    rw [if_neg (by simp [is_successful_false_of_truthy_error herr2])]
    exact parse_single_aux_sticky o max_retries (max_retries + 1 - (attempt + 1))
      (attempt + 1) rl _ (le_refl _) herr2

/-- Witness for C9: an oracle whose every attempt is HTTP 200 with an
extraction exception, `max_retries = 1`, starting at attempt 0. -/
theorem extraction_error_forces_terminal_failure_witness :
    (parse_single_aux
        ⟨fun _ => Outcome.http200 (Extraction.exc "boom"), fun _ => 0, fun _ => 0⟩
        1 AdaptiveRateLimiter.init { url := "u" } 0).2.1.error =
      some (failMsg 1) :=
  (extraction_error_forces_terminal_failure
    ⟨fun _ => Outcome.http200 (Extraction.exc "boom"), fun _ => 0, fun _ => 0⟩
    1 0 AdaptiveRateLimiter.init { url := "u" } "boom" rfl).1

/-! ## Batch orchestrator (`UltraReliableParser.parse_urls_in_batches`) -/

/-- Observable outcome of one `parse_urls_in_batches` run: the emitted result
sequence, how many inter-batch pauses were slept, and how many times the
progress callback was invoked. -/
structure BatchRun where
  results : List ParseResult
  pauses : ℕ
  callback_calls : ℕ
deriving DecidableEq

/-- The batch loop of `parse_urls_in_batches` (lines 480-516) with actual
batch size `bsub + 1`, processing the remaining targets with the current
1-based `batch_number`.  Each iteration takes the next
`urls[batch_idx : batch_idx + batch_size]` slice (`take`/`drop` on the
remainder), maps the per-target parse over it (`asyncio.gather` returns
results in task order, so the slice order is preserved), counts one progress
callback, and — exactly when `batch_idx + batch_size < len(urls)`, i.e. when
the remainder extends past this slice — counts one inter-batch pause.  The
per-target parse is a parameter `(url, batch_number) → ParseResult`, the
shape in which the orchestrator calls `parse_single_url`. -/
def batch_loop (parse : String → ℕ → ParseResult) (bsub : ℕ) :
    List String → ℕ → BatchRun
  | [], _ => ⟨[], 0, 0⟩
  | u :: rest, bn =>
      let batch := (u :: rest).take (bsub + 1)
      let tail := (u :: rest).drop (bsub + 1)
      let next := batch_loop parse bsub tail (bn + 1)
      ⟨batch.map (fun v => parse v bn) ++ next.results,
        (if tail = [] then 0 else 1) + next.pauses,
        1 + next.callback_calls⟩
  termination_by l => l.length
  decreasing_by simp; omega

/-- Embeds `parse_urls_in_batches` (lines 470-519): loop over the target list
in slices of `batch_size`, starting at `batch_number = 1`.  A zero
`batch_size` makes Python's `range(0, len(urls), 0)` raise `ValueError`,
modelled as `none`. -/
def parse_urls_in_batches (parse : String → ℕ → ParseResult) (batch_size : ℕ)
    (urls : List String) : Option BatchRun :=
  match batch_size with
  | 0 => none
  | b + 1 => some (batch_loop parse b urls 1)

lemma batch_loop_urls_aux (parse : String → ℕ → ParseResult) (bsub : ℕ)
    (hp : ∀ u n, (parse u n).url = u) :
    ∀ (fuel : ℕ) (l : List String) (bn : ℕ), l.length ≤ fuel →
      (batch_loop parse bsub l bn).results.map (fun r => r.url) = l := by
  intro fuel
  induction fuel with
  | zero =>
      intro l bn hl
      have : l = [] := List.length_eq_zero.mp (by omega)
      subst this
      rw [batch_loop]
      simp
  | succ n ih =>
      intro l bn hl
      match l with
      | [] =>
          rw [batch_loop]
          simp
      | u :: rest =>
          rw [batch_loop]
          simp only [List.map_append, List.map_map]
          have htail :
              (batch_loop parse bsub ((u :: rest).drop (bsub + 1)) (bn + 1)).results.map
                  (fun r => r.url) = (u :: rest).drop (bsub + 1) := by
            apply ih
            simp only [List.length_drop, List.length_cons]
            simp only [List.length_cons] at hl
            omega
          rw [htail]
          have hbatch : ((u :: rest).take (bsub + 1)).map
              ((fun r => r.url) ∘ fun v => parse v bn) = (u :: rest).take (bsub + 1) := by
            apply List.map_id''
            intro a
            exact hp a bn
          rw [hbatch, List.take_append_drop]

lemma batch_loop_urls (parse : String → ℕ → ParseResult) (bsub : ℕ)
    (hp : ∀ u n, (parse u n).url = u) (l : List String) (bn : ℕ) :
    (batch_loop parse bsub l bn).results.map (fun r => r.url) = l :=
  batch_loop_urls_aux parse bsub hp l.length l bn (le_refl _)

/-- C1: for every target list, every positive batch size and every per-target
parse that stamps the target into the result's `url` field (as
`parse_single_url` does), `parse_urls_in_batches` succeeds and returns one
result per target, in global input order: the sequence of `url` fields equals
the input list, so its length matches and the i-th result's `url` is the i-th
input target. -/
theorem parse_urls_in_batches_preserves_order (parse : String → ℕ → ParseResult)
    (batch_size : ℕ) (urls : List String) (hbs : 0 < batch_size)
    (hp : ∀ u n, (parse u n).url = u) :
    ∃ run : BatchRun,
      parse_urls_in_batches parse batch_size urls = some run ∧
        run.results.map (fun r => r.url) = urls ∧
        run.results.length = urls.length ∧
        ∀ (i : ℕ) (hi : i < run.results.length) (hi2 : i < urls.length),
          (run.results.get ⟨i, hi⟩).url = urls.get ⟨i, hi2⟩ := by
  match batch_size, hbs with
  | b + 1, _ =>
      refine ⟨batch_loop parse b urls 1, rfl, ?_, ?_, ?_⟩
      · exact batch_loop_urls parse b hp urls 1
      · have := congrArg List.length (batch_loop_urls parse b hp urls 1)
        simpa using this
      · intro i hi hi2
        have hmap := batch_loop_urls parse b hp urls 1
        have hg :
            ((batch_loop parse b urls 1).results.map (fun r => r.url)).get
                ⟨i, by rw [hmap]; exact hi2⟩ = urls.get ⟨i, hi2⟩ :=
          List.get_of_eq hmap ⟨i, by rw [hmap]; exact hi2⟩
        rw [List.get_map] at hg
        exact hg

/-- A parse stub that, like `parse_single_url`, stamps the target and batch
number into the result; used to instantiate witnesses. -/
def stampParse : String → ℕ → ParseResult :=
  fun u n => { url := u, batch_number := n }

/-- Witness for C1: three targets, batch size 2. -/
theorem parse_urls_in_batches_preserves_order_witness :
    ∃ run : BatchRun,
      parse_urls_in_batches stampParse 2 ["a", "b", "c"] = some run ∧
        run.results.map (fun r => r.url) = ["a", "b", "c"] ∧
        run.results.length = (["a", "b", "c"] : List String).length ∧
        ∀ (i : ℕ) (hi : i < run.results.length)
          (hi2 : i < (["a", "b", "c"] : List String).length),
          (run.results.get ⟨i, hi⟩).url = (["a", "b", "c"] : List String).get ⟨i, hi2⟩ :=
  parse_urls_in_batches_preserves_order stampParse 2 ["a", "b", "c"] (by decide)
    (fun u n => rfl)

lemma batch_loop_pauses_aux (parse : String → ℕ → ParseResult) (bsub : ℕ) :
    ∀ (fuel : ℕ) (l : List String) (bn : ℕ), l.length ≤ fuel →
      (batch_loop parse bsub l bn).pauses = (l.length + bsub) / (bsub + 1) - 1 := by
  intro fuel
  induction fuel with
  | zero =>
      intro l bn hl
      have : l = [] := List.length_eq_zero.mp (by omega)
      subst this
      rw [batch_loop]
      simp [Nat.div_eq_of_lt (show bsub < bsub + 1 by omega)]
  | succ n ih =>
      intro l bn hl
      match l with
      | [] =>
          rw [batch_loop]
          simp [Nat.div_eq_of_lt (show bsub < bsub + 1 by omega)]
      | u :: rest =>
          rw [batch_loop]
          simp only [List.length_cons] at hl
          have htail := ih ((u :: rest).drop (bsub + 1)) (bn + 1)
            (by simp only [List.length_drop, List.length_cons]; omega)
          simp only [htail, List.length_drop, List.length_cons, List.drop_eq_nil_iff,
            List.length_cons]
          by_cases hlen : rest.length + 1 ≤ bsub + 1
          · rw [if_pos hlen]
            have e0 : rest.length + 1 - (bsub + 1) = 0 := by omega
            rw [e0]
            have hz : (0 + bsub) / (bsub + 1) = 0 :=
              Nat.div_eq_of_lt (by omega)
            have h1 : (rest.length + 1 + bsub) / (bsub + 1) = 1 :=
              Nat.div_eq_of_lt_le (by omega) (by omega)
            rw [hz, h1]
          · rw [if_neg hlen]
            have e1 : rest.length + 1 - (bsub + 1) + bsub = rest.length := by omega
            have e2 : rest.length + 1 + bsub = rest.length + (bsub + 1) := by omega
            rw [e1, e2, Nat.add_div_right _ (by omega)]
            have e3 : 1 ≤ rest.length / (bsub + 1) :=
              (Nat.one_le_div_iff (by omega)).mpr (by omega)
            omega

/-- C6: for every target list and positive batch size, the inter-batch pause
is slept exactly `ceil(N / batchSize) - 1` times (in truncated natural
subtraction, so 0 times for an empty list), and hence never after the final
batch. -/
theorem batch_pause_count (parse : String → ℕ → ParseResult) (batch_size : ℕ)
    (urls : List String) (hbs : 0 < batch_size) :
    ∃ run : BatchRun,
      parse_urls_in_batches parse batch_size urls = some run ∧
        run.pauses = (urls.length + batch_size - 1) / batch_size - 1 := by
  match batch_size, hbs with
  | b + 1, _ =>
      refine ⟨batch_loop parse b urls 1, rfl, ?_⟩
      have h := batch_loop_pauses_aux parse b urls.length urls 1 (le_refl _)
      have e : urls.length + (b + 1) - 1 = urls.length + b := by omega
      rw [h, e]

/-- Witness for C6: five targets with batch size 2 sleep the pause
`ceil(5/2) - 1 = 2` times. -/
theorem batch_pause_count_witness :
    ∃ run : BatchRun,
      parse_urls_in_batches stampParse 2 ["a", "b", "c", "d", "e"] = some run ∧
        run.pauses =
          ((["a", "b", "c", "d", "e"] : List String).length + 2 - 1) / 2 - 1 :=
  batch_pause_count stampParse 2 ["a", "b", "c", "d", "e"] (by decide)

/-! ## Result aggregator (`UltraReliableParser.generate_report`) -/

/-- The flattened report dictionary built by `generate_report`
(lines 521-553): `summary`, `performance`, `failures` and `retry_analysis`
keys.  `total_retries` is an integer because Python computes
`sum(r.attempt_count - 1 for r in results)` over arbitrary ints. -/
structure Report where
  total_urls : ℕ
  successful : ℕ
  failed : ℕ
  success_rate : ℚ
  retry_rate : ℚ
  average_attempts : ℚ
  total_time : ℚ
  urls_per_second : ℚ
  average_parse_time : ℚ
  batches_processed : ℕ
  failed_urls : List String
  failure_reasons : List String
  urls_with_retries : ℕ
  total_retries : ℤ
  max_attempts : ℕ
deriving DecidableEq

/-- Embeds `generate_report` (lines 521-553).  `total_time` and
`batches_processed` stand for `self.stats['total_time']` and
`self.stats['batches_processed']`.  Every `X if results else 0` guard of the
Python code becomes an `if results = []` (or `if successful = []`,
`if 0 < total_time`) conditional; `max(...)` over the nonempty attempt-count
list is a fold from 0, which agrees with Python's `max` on naturals. -/
def generate_report (results : List ParseResult) (total_time : ℚ)
    (batches_processed : ℕ) : Report :=
  let successful := results.filter (fun r => r.is_successful)
  let failed := results.filter (fun r => !r.is_successful)
  let retried := results.filter (fun r => decide (1 < r.attempt_count))
  { total_urls := results.length
    successful := successful.length
    failed := failed.length
    success_rate :=
      if results = [] then 0 else (successful.length : ℚ) / results.length * 100
    retry_rate :=
      if results = [] then 0 else (retried.length : ℚ) / results.length * 100
    average_attempts :=
      if results = [] then 0
      else (results.map (fun r => (r.attempt_count : ℚ))).sum / results.length
    total_time := total_time
    urls_per_second :=
      if 0 < total_time then (results.length : ℚ) / total_time else 0
    average_parse_time :=
      if successful = [] then 0
      else (successful.map (fun r => r.parse_time)).sum / successful.length
    batches_processed := batches_processed
    failed_urls := failed.map (fun r => r.url)
    failure_reasons := (failed.filter (fun r => truthy r.error)).filterMap (fun r => r.error)
    urls_with_retries := retried.length
    total_retries := (results.map (fun r => (r.attempt_count : ℤ) - 1)).sum
    max_attempts :=
      if results = [] then 0 else (results.map (fun r => r.attempt_count)).foldl max 0 }

/-- A successful sample result: no error and a truthy `title` key field. -/
def okResult (u : String) (ac : ℕ) : ParseResult :=
  { url := u, title := some "film", attempt_count := ac }

/-- A terminally failed sample result after 4 attempts. -/
def failedResult : ParseResult :=
  { url := "u4", error := some (failMsg 3), attempt_count := 4 }

/-- C7 counterexample: over exactly 3 successful results with attempt counts
1, 1, 2 and 1 failed result with attempt count 4, `generate_report` yields a
retry rate of 50% — two of the four results used more than one attempt — not
the 25% the claim states. -/
theorem report_retry_rate_not_25 :
    (okResult "u1" 1).is_successful = true ∧
      (okResult "u2" 1).is_successful = true ∧
      (okResult "u3" 2).is_successful = true ∧
      failedResult.is_successful = false ∧
      (generate_report [okResult "u1" 1, okResult "u2" 1, okResult "u3" 2, failedResult]
          1 1).retry_rate = 50 ∧
      ¬(generate_report [okResult "u1" 1, okResult "u2" 1, okResult "u3" 2, failedResult]
          1 1).retry_rate = 25 := by
  have h1 : (okResult "u1" 1).is_successful = true := rfl
  have h2 : (okResult "u2" 1).is_successful = true := rfl
  have h3 : (okResult "u3" 2).is_successful = true := rfl
  have h4 : failedResult.is_successful = false := rfl
  have ha1 : (okResult "u1" 1).attempt_count = 1 := rfl
  have ha2 : (okResult "u2" 1).attempt_count = 1 := rfl
  have ha3 : (okResult "u3" 2).attempt_count = 2 := rfl
  have ha4 : failedResult.attempt_count = 4 := rfl
  have hne :
      ¬([okResult "u1" 1, okResult "u2" 1, okResult "u3" 2, failedResult] :
        List ParseResult) = [] := by simp
  refine ⟨h1, h2, h3, h4, ?_, ?_⟩
  · unfold generate_report
    simp only [List.filter_cons, List.filter_nil, h1, h2, h3, h4, ha1, ha2, ha3, ha4]
    rw [if_neg hne]
    norm_num
  · unfold generate_report
    simp only [List.filter_cons, List.filter_nil, h1, h2, h3, h4, ha1, ha2, ha3, ha4]
    rw [if_neg hne]
    norm_num

/-- C7 amended: for any result sequence of exactly 3 successes with attempt
counts 1, 1, 2 followed by 1 failure with attempt count 4, `generate_report`
yields `success_rate = 75%`, `retry_rate = 50%` (not 25%), and
`average_attempts = 2.0`. -/
theorem report_scenario_rates (a b c d : ParseResult) (t : ℚ) (bp : ℕ)
    (ha : a.is_successful = true) (ha1 : a.attempt_count = 1)
    (hb : b.is_successful = true) (hb1 : b.attempt_count = 1)
    (hc : c.is_successful = true) (hc2 : c.attempt_count = 2)
    (hd : d.is_successful = false) (hd4 : d.attempt_count = 4) :
    (generate_report [a, b, c, d] t bp).success_rate = 75 ∧
      (generate_report [a, b, c, d] t bp).retry_rate = 50 ∧
      (generate_report [a, b, c, d] t bp).average_attempts = 2 := by
  have hne : ¬([a, b, c, d] : List ParseResult) = [] := by simp
  unfold generate_report
  simp only [List.filter_cons, List.filter_nil, ha, hb, hc, hd, ha1, hb1, hc2, hd4,
    List.map_cons, List.map_nil]
  rw [if_neg hne, if_neg hne, if_neg hne]
  norm_num

/-- Witness for the amended C7 at concrete results. -/
theorem report_scenario_rates_witness :
    (generate_report [okResult "u1" 1, okResult "u2" 1, okResult "u3" 2, failedResult]
        0 0).success_rate = 75 ∧
      (generate_report [okResult "u1" 1, okResult "u2" 1, okResult "u3" 2, failedResult]
          0 0).retry_rate = 50 ∧
      (generate_report [okResult "u1" 1, okResult "u2" 1, okResult "u3" 2, failedResult]
          0 0).average_attempts = 2 :=
  report_scenario_rates (okResult "u1" 1) (okResult "u2" 1) (okResult "u3" 2)
    failedResult 0 0 rfl rfl rfl rfl rfl rfl rfl rfl

/-- C10: an empty target list yields an empty result sequence with zero batch
pauses and zero progress-callback invocations, and `generate_report` over the
empty sequence (for any run time and batch count) returns with every rate,
average and maximum equal to 0 — each division and `max` is guarded against
the empty case. -/
theorem empty_run_is_safe (parse : String → ℕ → ParseResult) (batch_size : ℕ)
    (hbs : 0 < batch_size) (t : ℚ) (bp : ℕ) :
    parse_urls_in_batches parse batch_size ([] : List String) =
        some ⟨[], 0, 0⟩ ∧
      (generate_report [] t bp).success_rate = 0 ∧
      (generate_report [] t bp).retry_rate = 0 ∧
      (generate_report [] t bp).average_attempts = 0 ∧
      (generate_report [] t bp).urls_per_second = 0 ∧
      (generate_report [] t bp).average_parse_time = 0 ∧
      (generate_report [] t bp).max_attempts = 0 := by
  refine ⟨?_, ?_, ?_, ?_, ?_, ?_, ?_⟩
  · match batch_size, hbs with
    | b + 1, _ =>
        show some (batch_loop parse b [] 1) = _
        rw [batch_loop]
  · rfl
  · rfl
  · rfl
  · show (if 0 < t then ((0 : ℚ) / t) else 0) = 0
    split <;> simp
  · rfl
  · rfl

/-- Witness for C10 with batch size 1, run time 1 and one processed batch. -/
theorem empty_run_is_safe_witness :
    parse_urls_in_batches stampParse 1 ([] : List String) = some ⟨[], 0, 0⟩ ∧
      (generate_report [] 1 1).success_rate = 0 ∧
      (generate_report [] 1 1).retry_rate = 0 ∧
      (generate_report [] 1 1).average_attempts = 0 ∧
      (generate_report [] 1 1).urls_per_second = 0 ∧
      (generate_report [] 1 1).average_parse_time = 0 ∧
      (generate_report [] 1 1).max_attempts = 0 :=
  empty_run_is_safe stampParse 1 (by decide) 1 1

/-! ## Engine construction (`UltraReliableParser.__init__`) -/

/-- The state assembled by `UltraReliableParser.__init__` (lines 133-162):
the four configuration values stored verbatim (as arbitrary Python ints and
a float), a fresh `AdaptiveRateLimiter`, and the zeroed `stats` dictionary
(`session` starts as `None` and is not modelled). -/
structure UltraReliableParserState where
  batch_size : ℤ
  batch_pause : ℚ
  max_concurrent : ℤ
  max_retries : ℤ
  rate_limiter : AdaptiveRateLimiter
  stats_total_urls : ℕ
  stats_successful_parses : ℕ
  stats_failed_parses : ℕ
  stats_total_retries : ℕ
  stats_total_time : ℚ
  stats_batches_processed : ℕ
deriving DecidableEq

/-- Embeds `UltraReliableParser.__init__`.  The `Option` result models the
possibility of the constructor raising; the body is straight-line field
assignment with no validation of any argument, so construction always
succeeds, whatever the configuration values. -/
def UltraReliableParser.init (batch_size : ℤ) (batch_pause : ℚ)
    (max_concurrent : ℤ) (max_retries : ℤ) : Option UltraReliableParserState :=
  some { batch_size := batch_size, batch_pause := batch_pause,
         max_concurrent := max_concurrent, max_retries := max_retries,
         rate_limiter := AdaptiveRateLimiter.init,
         stats_total_urls := 0, stats_successful_parses := 0,
         stats_failed_parses := 0, stats_total_retries := 0,
         stats_total_time := 0, stats_batches_processed := 0 }

/-- C8 counterexample: constructing with `batch_size = 0` (not > 0),
`batch_pause = -1` (negative), `max_concurrent = 0` (not > 0) and
`max_retries = -1` (negative) — all four unsupported — does NOT fail at
construction time: `__init__` validates nothing and hands back a parser. -/
theorem init_accepts_invalid_config :
    ¬((0 : ℤ) > 0) ∧ ¬((-1 : ℚ) ≥ 0) ∧ ¬((0 : ℤ) > 0) ∧ ¬((-1 : ℤ) ≥ 0) ∧
      (UltraReliableParser.init 0 (-1) 0 (-1)).isSome = true :=
  ⟨by norm_num, by norm_num, by norm_num, by norm_num, rfl⟩

/-- C8 amended: construction never fails; every configuration value,
supported or not, is stored verbatim, and invalid values surface only at
first use (a zero `batch_size`, for instance, makes `parse_urls_in_batches`
raise, modelled by its `none` branch). -/
theorem init_never_fails (bs : ℤ) (bp : ℚ) (mc : ℤ) (mr : ℤ) :
    UltraReliableParser.init bs bp mc mr =
      some { batch_size := bs, batch_pause := bp, max_concurrent := mc,
             max_retries := mr, rate_limiter := AdaptiveRateLimiter.init,
             stats_total_urls := 0, stats_successful_parses := 0,
             stats_failed_parses := 0, stats_total_retries := 0,
             stats_total_time := 0, stats_batches_processed := 0 } := rfl

end PageParser
